import Mathlib

/-!
Shallow embedding of the retrieval-augmented document chat core:
`backend/app/services/document_processor.py` (DocumentProcessor) and
`backend/app/services/chat_service.py` (ChatService).

External collaborators (OpenAI chat model, embeddings, Chroma vector store,
format loaders, uuid4 draws, json.loads, the text splitter, os.path.getsize)
are modelled as oracle fields of environment records; fallible collaborator
calls return `Except String` values, the error carrying the exception text.
Python floats (retrieval scores, the 0.8 / 0.3 confidence constants) are
modelled as rationals.  Python string operations are modelled character-wise
on `List Char` (Python slicing and `str.split` operate on code points, as
`String.take` / `String.splitOn` do here).
-/

/-- Model of Python `str.strip()` on the character list: drop whitespace from
both ends. -/
def stripL (l : List Char) : List Char :=
  ((l.dropWhile Char.isWhitespace).reverse.dropWhile Char.isWhitespace).reverse

/-- Model of Python `str.strip()`. -/
def pyStrip (s : String) : String :=
  ⟨stripL s.data⟩

/-- Model of Python `str.lower()` (character-wise). -/
def pyLower (s : String) : String :=
  ⟨s.data.map Char.toLower⟩

/-- Model of Python slicing `s[:n]`. -/
def pyTake (n : Nat) (s : String) : String :=
  ⟨s.data.take n⟩

/-- Model of Python `str.split(sep)` for a one-character separator: splits at
every occurrence, keeping empty parts.  The result is never empty. -/
def splitOnCharL (sep : Char) : List Char → List (List Char)
  | [] => [[]]
  | c :: rest =>
    let r := splitOnCharL sep rest
    if c = sep then [] :: r
    else (c :: r.headI) :: r.tail

def pySplit (sep : Char) (s : String) : List String :=
  (splitOnCharL sep s.data).map (fun l => ⟨l⟩)

/-- Model of Python `str.startswith` (first argument: the string, second:
the candidate head). -/
def startsWithL : List Char → List Char → Bool
  | _, [] => true
  | [], _ :: _ => false
  | c :: t, p :: q => c = p && startsWithL t q

theorem dropWhile_length_le (p : Char → Bool) (l : List Char) :
    (l.dropWhile p).length ≤ l.length := by
  induction l with
  | nil => simp
  | cons a t ih =>
    by_cases h : p a
    · rw [List.dropWhile_cons, if_pos h]
      exact Nat.le_trans ih (Nat.le_succ _)
    · rw [List.dropWhile_cons, if_neg h]

theorem dropWhile_ws_idem (p : Char → Bool) (l : List Char) :
    (l.dropWhile p).dropWhile p = l.dropWhile p := by
  induction l with
  | nil => rfl
  | cons a t ih =>
    by_cases h : p a <;> simp [List.dropWhile_cons, h, ih]

theorem dropWhile_suffix_ex (p : Char → Bool) (l : List Char) :
    ∃ u, u ++ l.dropWhile p = l := by
  induction l with
  | nil => exact ⟨[], rfl⟩
  | cons a t ih =>
    by_cases h : p a
    · obtain ⟨u, hu⟩ := ih
      exact ⟨a :: u, by simp [List.dropWhile_cons, h, hu]⟩
    · exact ⟨[], by simp [List.dropWhile_cons, h]⟩

theorem dropWhile_eq_self_of_ex (p : Char → Bool) (l pre : List Char)
    (hl : l.dropWhile p = l) (hp : ∃ t, pre ++ t = l) :
    pre.dropWhile p = pre := by
  cases pre with
  | nil => rfl
  | cons c t =>
    obtain ⟨u, hu⟩ := hp
    have hc : p c = false := by
      rcases hl' : l with _ | ⟨c', t'⟩
      · simp [hl'] at hu
      · have hc' : c' = c := by
          have := hu.trans hl'
          simp at this
          exact this.1.symm
        by_contra hpc
        have hpc' : p c' = true := by
          simp [hc']
          exact Bool.of_not_eq_false hpc
        have := hl
        rw [hl', List.dropWhile_cons, hpc'] at this
        have hlen := congrArg List.length this
        have hle := dropWhile_length_le p t'
        simp at hlen
        omega
    simp [List.dropWhile_cons, hc]

theorem stripL_reversed_clean (l : List Char) :
    (stripL l).reverse.dropWhile Char.isWhitespace = (stripL l).reverse := by
  unfold stripL
  rw [List.reverse_reverse]
  exact dropWhile_ws_idem _ _

theorem stripL_clean (l : List Char) :
    (stripL l).dropWhile Char.isWhitespace = stripL l := by
  unfold stripL
  set a := l.dropWhile Char.isWhitespace with ha
  have haa : a.dropWhile Char.isWhitespace = a := by
    rw [ha]; exact dropWhile_ws_idem _ _
  -- the stripped list is a prefix of `a`, whose head is already clean
  apply dropWhile_eq_self_of_ex Char.isWhitespace a
  · exact haa
  · obtain ⟨u, hu⟩ := dropWhile_suffix_ex Char.isWhitespace a.reverse
    refine ⟨u.reverse, ?_⟩
    have := congrArg List.reverse hu
    simpa using this

theorem stripL_idem (l : List Char) : stripL (stripL l) = stripL l := by
  show ((((stripL l).dropWhile Char.isWhitespace).reverse.dropWhile
      Char.isWhitespace).reverse) = stripL l
  rw [stripL_clean, stripL_reversed_clean, List.reverse_reverse]

theorem pyStrip_idem (s : String) : pyStrip (pyStrip s) = pyStrip s := by
  unfold pyStrip
  exact congrArg String.mk (stripL_idem s.data)

/-- Model of `pathlib.PurePath(p).suffix`: the extension of the final path
component, including the leading dot; empty when the last dot is leading or
trailing in the name, or absent. -/
def pathSuffix (p : String) : String :=
  let name := (p.data.reverse.takeWhile (fun c => c ≠ '/')).reverse
  if name.contains '.' then
    let r := (name.reverse.takeWhile (fun c => c ≠ '.')).length
    if 0 < r ∧ r < name.length - 1 then
      ⟨'.' :: (name.reverse.takeWhile (fun c => c ≠ '.')).reverse⟩
    else ""
  else ""

/-- Metadata dictionary of a langchain `Document`, projected onto the four
keys written by the processing pipeline; `rest` carries every other key.
Two Python dicts are equal iff all four projections and the remainder agree,
so `DecidableEq` here coincides with Python `==` on the dict. -/
structure Md where
  document_id : Option String
  filename : Option String
  document_type : Option String
  chunk_index : Option Nat
  rest : List (String × String)
deriving DecidableEq, Repr

/-- A langchain `Document` (pydantic model): equality compares
`page_content` and `metadata` fieldwise, which `DecidableEq` mirrors. -/
structure Doc where
  page_content : String
  metadata : Md
deriving DecidableEq, Repr

/-- The `chunk.metadata.update(...)` call of `process_document`. -/
def stampMd (m : Md) (vid fn dt : String) (idx : Nat) : Md :=
  { m with
    document_id := some vid
    filename := some fn
    document_type := some dt
    chunk_index := some idx }

/-- Python `list.index`: position of the first element equal to `c`. -/
def listIndexOf : List Doc → Doc → Nat
  | [], _ => 0
  | d :: rest, c => if d = c then 0 else listIndexOf rest c + 1

/-- The metadata-stamping loop of `process_document` (lines 175-181): the
list is mutated in place, so each `text_chunks.index(chunk)` call searches
the current state — already-stamped prefix `done` followed by the pending
chunks. -/
def stampGo (vid fn dt : String) : List Doc → List Doc → List Doc
  | done, [] => done
  | done, c :: todo =>
    let idx := listIndexOf (done ++ c :: todo) c
    stampGo vid fn dt
      (done ++ [{ c with metadata := stampMd c.metadata vid fn dt idx }]) todo

def stampChunks (vid fn dt : String) (chunks : List Doc) : List Doc :=
  stampGo vid fn dt [] chunks

/-- Reference stamping: chunk at position `i` (counting from `i0`) receives
chunk index `i`. -/
def stampFromIdx (vid fn dt : String) (i0 : Nat) : List Doc → List Doc
  | [] => []
  | c :: rest =>
    { c with metadata := stampMd c.metadata vid fn dt i0 } ::
      stampFromIdx vid fn dt (i0 + 1) rest

/-- Errors that `load_document` can raise: the explicit
`ValueError of an unsupported file type` (line 58), or any exception
propagating out of the format loader itself. -/
inductive LoadErr where
  | unsupportedFileType (ext : String)
  | loaderFailure (msg : String)
deriving DecidableEq, Repr

/-- Opaque stand-in for a value produced by `json.loads`. -/
structure JsonV where
  raw : String
deriving DecidableEq, Repr

/-- Return value of `extract_structured_data`: a parsed JSON object, the
raw-text fallback for unmapped document types, or the degraded mapping
returned when the model response fails to parse. -/
inductive ExtractResult where
  | parsed (j : JsonV)
  | rawOnly (excerpt : String)
  | fallbackData (extracted : String) (excerpt : String)
deriving DecidableEq, Repr

/-- Collaborator oracles of `DocumentProcessor`.  `vid` is the uuid4 draw of
`process_document`; `split` is the recursive character text splitter. -/
structure ProcEnv where
  pdfLoad : String → Except String (List Doc)
  txtLoad : String → Except String (List Doc)
  classifyLLM : String → Except String String
  extractLLM : String → String → Except String String
  parseJson : String → Option JsonV
  split : List Doc → List Doc
  addDocs : List Doc → Except String Unit
  fileSize : String → Except String Nat
  vid : String
  timestamp : String

/-- `DocumentProcessor.load_document` (lines 48-65). -/
def load_document (env : ProcEnv) (file_path : String) :
    Except LoadErr (List Doc) :=
  let ext := pyLower (pathSuffix file_path)
  if ext = ".pdf" then (env.pdfLoad file_path).mapError LoadErr.loaderFailure
  else if ext = ".txt" then (env.txtLoad file_path).mapError LoadErr.loaderFailure
  else Except.error (LoadErr.unsupportedFileType ext)

/-- `DocumentProcessor.classify_document` (lines 67-88): sends the first
2000 characters to the model and returns `result.strip().lower()` with no
further validation. -/
def classify_document (env : ProcEnv) (text : String) : Except String String :=
  match env.classifyLLM (pyTake 2000 text) with
  | Except.error e => Except.error e
  | Except.ok result => Except.ok (pyLower (pyStrip result))

/-- `DocumentProcessor.extract_structured_data` (lines 90-151). -/
def extract_structured_data (env : ProcEnv) (text document_type : String) :
    Except String ExtractResult :=
  if ¬(document_type = "contract" ∨ document_type = "invoice" ∨
      document_type = "report") then
    Except.ok (ExtractResult.rawOnly (pyTake 1000 text))
  else
    match env.extractLLM document_type (pyTake 3000 text) with
    | Except.error e => Except.error e
    | Except.ok result =>
      match env.parseJson result with
      | some j => Except.ok (ExtractResult.parsed j)
      | none => Except.ok (ExtractResult.fallbackData result (pyTake 1000 text))

inductive PipelineErr where
  | load (e : LoadErr)
  | classifyFailure (msg : String)
  | extractFailure (msg : String)
  | indexFailure (msg : String)
  | statFailure (msg : String)
deriving DecidableEq, Repr

structure ProcOut where
  vector_id : String
  document_type : String
  extracted_data : ExtractResult
  num_pages : Nat
  num_chunks : Nat
  file_size : Nat
  processing_timestamp : String
deriving DecidableEq, Repr

/-- `DocumentProcessor.process_document` (lines 153-204).  The second
component is the trace of batches handed to `vector_store.add_documents`:
empty when the pipeline aborts before the index write. -/
def process_document (env : ProcEnv) (file_path original_filename : String) :
    Except PipelineErr ProcOut × List (List Doc) :=
  match load_document env file_path with
  | Except.error e => (Except.error (PipelineErr.load e), [])
  | Except.ok documents =>
    let full_text := String.intercalate "\n" (documents.map Doc.page_content)
    match classify_document env full_text with
    | Except.error e => (Except.error (PipelineErr.classifyFailure e), [])
    | Except.ok document_type =>
      match extract_structured_data env full_text document_type with
      | Except.error e => (Except.error (PipelineErr.extractFailure e), [])
      | Except.ok extracted_data =>
        let text_chunks :=
          stampChunks env.vid original_filename document_type
            (env.split documents)
        match env.addDocs text_chunks with
        | Except.error e =>
          (Except.error (PipelineErr.indexFailure e), [text_chunks])
        | Except.ok _ =>
          match env.fileSize file_path with
          | Except.error e =>
            (Except.error (PipelineErr.statFailure e), [text_chunks])
          | Except.ok sz =>
            (Except.ok
              ⟨env.vid, document_type, extracted_data, documents.length,
                text_chunks.length, sz, env.timestamp⟩,
             [text_chunks])

theorem listIndexOf_append (l1 l2 : List Doc) (c : Doc)
    (h : ∀ d ∈ l1, d ≠ c) :
    listIndexOf (l1 ++ c :: l2) c = l1.length := by
  induction l1 with
  | nil => simp [listIndexOf]
  | cons a t ih =>
    have ha : a ≠ c := h a (by simp)
    show (if a = c then 0 else listIndexOf (t ++ c :: l2) c + 1) = t.length + 1
    rw [if_neg ha, ih (fun d hd => h d (by simp [hd]))]

theorem stampGo_spec (vid fn dt : String) (todo : List Doc) :
    ∀ done : List Doc,
      (∀ d ∈ done, d.metadata.document_id = some vid) →
      (∀ d ∈ todo, d.metadata.document_id ≠ some vid) →
      stampGo vid fn dt done todo =
        done ++ stampFromIdx vid fn dt done.length todo := by
  induction todo with
  | nil => intro done _ _; simp [stampGo, stampFromIdx]
  | cons c rest ih =>
    intro done hdone htodo
    have hne : ∀ d ∈ done, d ≠ c := by
      intro d hd hdc
      exact htodo c (by simp) (hdc ▸ hdone d hd)
    have hih := ih
      (done ++ [{ c with metadata := stampMd c.metadata vid fn dt done.length }])
      (by
        intro d hd
        rcases List.mem_append.1 hd with h | h
        · exact hdone d h
        · simp at h
          subst h
          rfl)
      (fun d hd => htodo d (by simp [hd]))
    have hidx : listIndexOf (done ++ c :: rest) c = done.length :=
      listIndexOf_append done rest c hne
    simp only [stampGo, hidx]
    rw [hih]
    simp [stampFromIdx, List.append_assoc]

theorem stampChunks_spec (vid fn dt : String) (chunks : List Doc)
    (h : ∀ d ∈ chunks, d.metadata.document_id ≠ some vid) :
    stampChunks vid fn dt chunks = stampFromIdx vid fn dt 0 chunks := by
  unfold stampChunks
  rw [stampGo_spec vid fn dt chunks [] (by simp) h]
  rfl

theorem stampFromIdx_chunk_index (vid fn dt : String) :
    ∀ (l : List Doc) (i0 : Nat),
      (stampFromIdx vid fn dt i0 l).map (fun d => d.metadata.chunk_index) =
        (List.range' i0 l.length).map some := by
  intro l
  induction l with
  | nil => intro i0; rfl
  | cons c rest ih =>
    intro i0
    simp only [stampFromIdx, List.map_cons, List.length_cons, List.range',
      stampMd, ih]

theorem stampFromIdx_length (vid fn dt : String) (l : List Doc) (i0 : Nat) :
    (stampFromIdx vid fn dt i0 l).length = l.length := by
  induction l generalizing i0 with
  | nil => rfl
  | cons c rest ih => simp [stampFromIdx, ih]

theorem stampChunks_chunk_index (vid fn dt : String) (chunks : List Doc)
    (h : ∀ d ∈ chunks, d.metadata.document_id ≠ some vid) :
    (stampChunks vid fn dt chunks).map (fun d => d.metadata.chunk_index) =
      (List.range (stampChunks vid fn dt chunks).length).map some := by
  rw [stampChunks_spec vid fn dt chunks h, stampFromIdx_chunk_index,
    stampFromIdx_length, List.range_eq_range']

/-- Claim C1: for every document successfully processed by
`process_document`, the `chunk_index` values stamped onto the batch handed
to the vector index form the contiguous 0-based sequence `0, ..., n-1`, in
order, for any chunk list the splitter returns — including lists containing
equal chunks, because the in-place `metadata.update` makes each already
stamped chunk differ from every pending one.  The hypothesis states that
the freshly drawn uuid4 `vid` does not already occur as a `document_id` in
any split chunk. -/
theorem process_document_chunk_index_contiguous (env : ProcEnv)
    (file_path original_filename : String)
    (hfresh : ∀ docs : List Doc, ∀ c ∈ env.split docs,
      c.metadata.document_id ≠ some env.vid) :
    ∀ batch ∈ (process_document env file_path original_filename).2,
      batch.map (fun d => d.metadata.chunk_index) =
        (List.range batch.length).map some := by
  intro batch hb
  simp only [process_document] at hb
  split at hb
  · simp at hb
  · split at hb
    · simp at hb
    · split at hb
      · simp at hb
      · split at hb
        · rw [List.mem_singleton] at hb
          subst hb
          exact stampChunks_chunk_index _ _ _ _ (hfresh _)
        · split at hb
          · rw [List.mem_singleton] at hb
            subst hb
            exact stampChunks_chunk_index _ _ _ _ (hfresh _)
          · rw [List.mem_singleton] at hb
            subst hb
            exact stampChunks_chunk_index _ _ _ _ (hfresh _)

/-- Empty langchain metadata dict. -/
def mdEmpty : Md := ⟨none, none, none, none, []⟩

/-- Two equal chunks, as produced by splitting a page whose halves repeat. -/
def dup2 : List Doc := [⟨"alpha", mdEmpty⟩, ⟨"alpha", mdEmpty⟩]

/-- Well-behaved concrete environment whose splitter returns two equal
chunks. -/
def envDup : ProcEnv :=
  { pdfLoad := fun _ => Except.ok [⟨"alpha alpha", mdEmpty⟩]
  , txtLoad := fun _ => Except.ok [⟨"alpha alpha", mdEmpty⟩]
  , classifyLLM := fun _ => Except.ok "report"
  , extractLLM := fun _ _ => Except.ok "x"
  , parseJson := fun _ => none
  , split := fun _ => dup2
  , addDocs := fun _ => Except.ok ()
  , fileSize := fun _ => Except.ok 10
  , vid := "vid-1"
  , timestamp := "ts-1" }

theorem envDup_fresh : ∀ docs : List Doc, ∀ c ∈ envDup.split docs,
    c.metadata.document_id ≠ some envDup.vid := by
  intro docs c hc
  have hc' : c = ⟨"alpha", mdEmpty⟩ := by
    have : c ∈ dup2 := hc
    simpa [dup2] using this
  subst hc'
  simp [mdEmpty, envDup]

/-- Witness for claim C1 at a concrete input with two equal chunks. -/
theorem process_document_chunk_index_contiguous_witness :
    (stampChunks "vid-1" "a.pdf" "report" dup2).map
        (fun d => d.metadata.chunk_index) =
      (List.range (stampChunks "vid-1" "a.pdf" "report" dup2).length).map
        some :=
  process_document_chunk_index_contiguous envDup "a.pdf" "a.pdf"
    envDup_fresh
    (stampChunks "vid-1" "a.pdf" "report" dup2) (by decide)

/-- Environment in which the classification model answers with a string
outside the documented taxonomy. -/
def envOffTaxonomy : ProcEnv :=
  { envDup with classifyLLM := fun _ => Except.ok " A Banana! " }

/-- Claim C2 (code bug): `classify_document` merely strips and lowercases
the model response and returns it verbatim; an unrecognized response is
not mapped to the category `other`, contradicting the spec and the
assertion of `test_classify_document`.  At the failing input the code
returns the off-taxonomy string `a banana!`. -/
theorem classify_document_returns_unrecognized_verbatim :
    classify_document envOffTaxonomy "This agreement is made..." =
      Except.ok "a banana!" ∧
    "a banana!" ∉
      (["contract", "invoice", "report", "letter", "other"] : List String) := by
  constructor
  · rfl
  · decide

/-- Claim C3 (code bug): `load_document` handles only the `.pdf` and `.txt`
extensions, although `settings.allowed_extensions` and the spec also admit
`.docx`; processing a `.docx` file raises the unsupported-file-type
`ValueError` and no batch is handed to the vector index.  Stated for the
concrete well-behaved environment. -/
theorem process_document_docx_unsupported :
    load_document envDup "report.docx" =
      Except.error (LoadErr.unsupportedFileType ".docx") ∧
    process_document envDup "report.docx" "report.docx" =
      (Except.error (PipelineErr.load (LoadErr.unsupportedFileType ".docx")),
        []) := by
  constructor
  · rfl
  · rfl

/-- Claim C8: `extract_structured_data` never fails the pipeline on bad
model output: a document type outside the mapped set yields the raw-text
excerpt mapping, and a mapped type whose model response does not parse as
JSON yields the degraded mapping of the raw response plus the excerpt. -/
theorem extract_structured_data_degrades (env : ProcEnv)
    (text document_type : String) :
    (¬(document_type = "contract" ∨ document_type = "invoice" ∨
        document_type = "report") →
      extract_structured_data env text document_type =
        Except.ok (ExtractResult.rawOnly (pyTake 1000 text))) ∧
    (∀ r, (document_type = "contract" ∨ document_type = "invoice" ∨
        document_type = "report") →
      env.extractLLM document_type (pyTake 3000 text) = Except.ok r →
      env.parseJson r = none →
      extract_structured_data env text document_type =
        Except.ok (ExtractResult.fallbackData r (pyTake 1000 text))) := by
  constructor
  · intro h
    rw [extract_structured_data, if_pos h]
  · intro r hmap hr hp
    simp only [extract_structured_data, hr, hp]
    rw [if_neg (not_not_intro hmap)]

/-- Environment whose extraction model returns output that is not JSON. -/
def envNoJson : ProcEnv :=
  { envDup with
    extractLLM := fun _ _ => Except.ok "not json"
    parseJson := fun _ => none }

/-- Witness for claim C8: an unmapped type and a mapped type with
unparsable model output, both degrading instead of failing. -/
theorem extract_structured_data_degrades_witness :
    extract_structured_data envNoJson "T" "letter" =
      Except.ok (ExtractResult.rawOnly (pyTake 1000 "T")) ∧
    extract_structured_data envNoJson "T" "invoice" =
      Except.ok (ExtractResult.fallbackData "not json" (pyTake 1000 "T")) :=
  ⟨(extract_structured_data_degrades envNoJson "T" "letter").1 (by decide),
   (extract_structured_data_degrades envNoJson "T" "invoice").2 "not json"
     (by decide) rfl rfl⟩

/-- A message dict of `ChatService.add_message`: content, role, and the
uuid4 string stored in the `timestamp` slot. -/
structure Message where
  content : String
  role : String
  timestamp : String
deriving DecidableEq, Repr

/-- One session value of `conversation_history`: title, message list and the
(unused) context list collapse to the fields actually read. -/
structure SessionData where
  title : String
  messages : List Message
deriving DecidableEq, Repr

/-- The `conversation_history` dict plus the uuid4 draw counter: every call
to `uuid.uuid4()` (session ids and message timestamps) pops the next value
of the environment's uuid stream. -/
structure ChatState where
  history : List (String × SessionData)
  tick : Nat
deriving DecidableEq, Repr

/-- Metadata carried by a retrieval hit, projected onto the keys the chat
engine reads with `.get(key, "Unknown")`. -/
structure HitMeta where
  filename : Option String
  document_type : Option String
deriving DecidableEq, Repr

/-- One result of `DocumentProcessor.search_documents`. -/
structure SearchHit where
  content : String
  metadata : HitMeta
  score : ℚ
deriving DecidableEq, Repr

/-- One entry of the `sources` list of a chat result. -/
structure Source where
  filename : String
  document_type : String
  content : String
  score : ℚ
deriving DecidableEq, Repr

/-- The dict returned by `ChatService.generate_response`. -/
structure ChatResult where
  response : String
  session_id : String
  sources : List Source
  confidence : ℚ
deriving DecidableEq, Repr

/-- Collaborator oracles of `ChatService`: the similarity search (via
`DocumentProcessor.search_documents`), the response model call with its
three template slots, the follow-up suggestion model call with its two
slots, and the uuid4 stream. -/
structure ChatEnv where
  search : String → Nat → Except String (List SearchHit)
  llm : String → String → String → Except String String
  suggestLLM : String → String → Except String String
  uuid : Nat → String

/-- Dictionary lookup in `conversation_history`. -/
def lookupStore : List (String × SessionData) → String → Option SessionData
  | [], _ => none
  | (k, v) :: rest, sid => if k = sid then some v else lookupStore rest sid

/-- Dictionary assignment `conversation_history[sid] = v`: replaces the
value in place or appends a new binding. -/
def storeSet : List (String × SessionData) → String → SessionData →
    List (String × SessionData)
  | [], k, v => [(k, v)]
  | (k', v') :: rest, k, v =>
    if k' = k then (k, v) :: rest else (k', v') :: storeSet rest k v

/-- In-place `conversation_history[sid]["messages"].append(m)`. -/
def appendMsg : List (String × SessionData) → String → Message →
    List (String × SessionData)
  | [], _, _ => []
  | (k, sd) :: rest, sid, m =>
    if k = sid then (k, ⟨sd.title, sd.messages ++ [m]⟩) :: rest
    else (k, sd) :: appendMsg rest sid m

/-- Message history of a session, empty when the id is unknown. -/
def msgs (st : ChatState) (k : String) : List Message :=
  match lookupStore st.history k with
  | some sd => sd.messages
  | none => []

/-- `ChatService.create_session` (lines 23-31). -/
def create_session (env : ChatEnv) (st : ChatState) (title : String) :
    String × ChatState :=
  let session_id := env.uuid st.tick
  (session_id, ⟨storeSet st.history session_id ⟨title, []⟩, st.tick + 1⟩)

/-- `ChatService.add_message` (lines 37-48).  The second component carries
the `ValueError` message when the session id is unknown; the state is
returned unchanged in that case because the raise precedes every mutation. -/
def add_message (env : ChatEnv) (st : ChatState)
    (session_id content role : String) : ChatState × Option String :=
  match lookupStore st.history session_id with
  | none => (st, some ("Session " ++ session_id ++ " not found"))
  | some _ =>
    let message : Message := ⟨content, role, env.uuid st.tick⟩
    (⟨appendMsg st.history session_id message, st.tick + 1⟩, none)

/-- `ChatService.search_relevant_context` (lines 50-57): absorbs any search
exception into the empty hit list. -/
def search_relevant_context (env : ChatEnv) (query : String) :
    List SearchHit :=
  match env.search query 5 with
  | Except.ok results => results
  | Except.error _ => []

/-- Python `l[-n:]`. -/
def lastN (n : Nat) (l : List α) : List α :=
  l.drop (l.length - n)

/-- The joined context block built from the retrieval hits (lines 75-80). -/
def contextText (hits : List SearchHit) : String :=
  String.intercalate "\n\n" (hits.map (fun r =>
    "Document: " ++ r.metadata.filename.getD "Unknown" ++
    "\nContent: " ++ r.content))

/-- The `context` template argument, with the falsy-string default. -/
def contextArg (hits : List SearchHit) : String :=
  if contextText hits = "" then "No relevant documents found."
  else contextText hits

/-- The rendered conversation history (last 5 messages, lines 92-98). -/
def historyText (messages : List Message) : String :=
  String.intercalate "\n" ((lastN 5 messages).map (fun m =>
    m.role ++ ": " ++ m.content))

/-- The `history` template argument, with the falsy-string default. -/
def historyArg (messages : List Message) : String :=
  if historyText messages = "" then "No previous conversation."
  else historyText messages

/-- The `sources` list built from the retrieval hits (lines 82-90). -/
def mkSources (hits : List SearchHit) : List Source :=
  hits.map (fun r =>
    ⟨r.metadata.filename.getD "Unknown",
     r.metadata.document_type.getD "Unknown",
     if 200 < r.content.length then pyTake 200 r.content ++ "..."
     else r.content,
     r.score⟩)

/-- The fixed degraded response of the `except` branch (lines 149-156). -/
def apology : String :=
  "I apologize, but I encountered an error while processing your request. Please try again."

/-- Session resolution (lines 66-69): reuse a known session id or create a
fresh session. -/
def resolve_session (env : ChatEnv) (st : ChatState) (session_id : String) :
    String × ChatState :=
  match lookupStore st.history session_id with
  | some _ => (session_id, st)
  | none => create_session env st "New Chat"

/-- The two history appends and the final result dict (lines 133-147); any
`ValueError` out of `add_message` falls into the `except` branch with the
state mutated so far. -/
def finish_turn (env : ChatEnv) (st1 : ChatState)
    (sid query response : String) (sources : List Source) (conf : ℚ) :
    ChatResult × ChatState :=
  match add_message env st1 sid query "user" with
  | (st2, some _) => (⟨apology, sid, [], 0⟩, st2)
  | (st2, none) =>
    match add_message env st2 sid response "assistant" with
    | (st3, some _) => (⟨apology, sid, [], 0⟩, st3)
    | (st3, none) => (⟨pyStrip response, sid, sources, conf⟩, st3)

/-- `ChatService.generate_response` (lines 59-156). -/
def generate_response (env : ChatEnv) (st : ChatState)
    (query session_id : String) : ChatResult × ChatState :=
  let relevant_context := search_relevant_context env query
  let r := resolve_session env st session_id
  let sid := r.1
  let st1 := r.2
  match lookupStore st1.history sid with
  | none => (⟨apology, sid, [], 0⟩, st1)
  | some session =>
    match env.llm query (contextArg relevant_context)
        (historyArg session.messages) with
    | Except.error _ => (⟨apology, sid, [], 0⟩, st1)
    | Except.ok response =>
      finish_turn env st1 sid query response (mkSources relevant_context)
        (if relevant_context.isEmpty then 3/10 else 4/5)

/-- The question extracted from one already-stripped line (line 234):
`line.split(chr 46, 1)[1].strip() if chr 46 in line else line`. -/
def questionOf (l : String) : String :=
  if l.data.contains '.' then
    ⟨stripL ((l.data.dropWhile (fun c => c ≠ '.')).tail)⟩
  else l

/-- `ChatService.suggest_follow_up_questions`: parsing of one stripped
line (lines 231-236). -/
def parseSuggestionLine (line : String) : Option String :=
  if pyStrip line = "" then none
  else if startsWithL (pyStrip line).data "1.".data ||
      startsWithL (pyStrip line).data "2.".data ||
      startsWithL (pyStrip line).data "3.".data ||
      (pyStrip line).data.headI.isDigit then
    if questionOf (pyStrip line) = "" then none
    else some (questionOf (pyStrip line))
  else none

/-- The rendered recent context of `suggest_follow_up_questions`
(lines 198-203). -/
def recentText (messages : List Message) : String :=
  String.intercalate "\n"
    ((lastN 3 messages).map (fun m => m.role ++ ": " ++ m.content))

/-- `ChatService.suggest_follow_up_questions` (lines 191-242). -/
def suggest_follow_up_questions (env : ChatEnv) (st : ChatState)
    (query session_id : String) : List String :=
  match lookupStore st.history session_id with
  | none => []
  | some session =>
    match env.suggestLLM query
        (if recentText session.messages = "" then "No recent context."
         else recentText session.messages) with
    | Except.error _ => []
    | Except.ok suggestions =>
      ((pySplit '\n' (pyStrip suggestions)).filterMap parseSuggestionLine).take 3

theorem lookupStore_storeSet_self (h : List (String × SessionData))
    (k : String) (v : SessionData) :
    lookupStore (storeSet h k v) k = some v := by
  induction h with
  | nil => simp [storeSet, lookupStore]
  | cons p rest ih =>
    rcases p with ⟨k', v'⟩
    by_cases hk : k' = k
    · simp [storeSet, hk, lookupStore]
    · simp [storeSet, hk, lookupStore, ih]

theorem lookupStore_storeSet_ne (h : List (String × SessionData))
    (k k' : String) (v : SessionData) (hk : k' ≠ k) :
    lookupStore (storeSet h k v) k' = lookupStore h k' := by
  induction h with
  | nil => simp [storeSet, lookupStore, Ne.symm hk]
  | cons p rest ih =>
    rcases p with ⟨k0, v0⟩
    by_cases h0 : k0 = k
    · subst h0
      simp [storeSet, lookupStore, Ne.symm hk]
    · simp only [storeSet, if_neg h0, lookupStore]
      by_cases h1 : k0 = k'
      · simp [h1]
      · simp [h1, ih]

theorem lookupStore_appendMsg_self (h : List (String × SessionData))
    (k : String) (m : Message) :
    lookupStore (appendMsg h k m) k =
      (lookupStore h k).map (fun sd => ⟨sd.title, sd.messages ++ [m]⟩) := by
  induction h with
  | nil => simp [appendMsg, lookupStore]
  | cons p rest ih =>
    rcases p with ⟨k0, v0⟩
    by_cases h0 : k0 = k
    · simp [appendMsg, h0, lookupStore]
    · simp [appendMsg, h0, lookupStore, ih]

theorem lookupStore_appendMsg_ne (h : List (String × SessionData))
    (k k' : String) (m : Message) (hk : k' ≠ k) :
    lookupStore (appendMsg h k m) k' = lookupStore h k' := by
  induction h with
  | nil => simp [appendMsg, lookupStore]
  | cons p rest ih =>
    rcases p with ⟨k0, v0⟩
    by_cases h0 : k0 = k
    · subst h0
      simp [appendMsg, lookupStore, Ne.symm hk]
    · simp only [appendMsg, if_neg h0, lookupStore]
      by_cases h1 : k0 = k'
      · simp [h1]
      · simp [h1, ih]

theorem resolve_session_known (env : ChatEnv) (st : ChatState)
    (session_id : String) (sd : SessionData)
    (hsd : lookupStore st.history session_id = some sd) :
    resolve_session env st session_id = (session_id, st) := by
  unfold resolve_session
  rw [hsd]

theorem resolve_session_unknown (env : ChatEnv) (st : ChatState)
    (session_id : String)
    (habs : lookupStore st.history session_id = none) :
    resolve_session env st session_id =
      (env.uuid st.tick,
        ⟨storeSet st.history (env.uuid st.tick) ⟨"New Chat", []⟩,
          st.tick + 1⟩) := by
  unfold resolve_session
  rw [habs]
  rfl

theorem resolve_session_finds (env : ChatEnv) (st : ChatState)
    (session_id : String) :
    ∃ sd, lookupStore (resolve_session env st session_id).2.history
      (resolve_session env st session_id).1 = some sd := by
  rcases h : lookupStore st.history session_id with _ | sd
  · rw [resolve_session_unknown env st session_id h]
    exact ⟨⟨"New Chat", []⟩, lookupStore_storeSet_self _ _ _⟩
  · rw [resolve_session_known env st session_id sd h]
    exact ⟨sd, h⟩

theorem generate_response_ok (env : ChatEnv) (st : ChatState)
    (query session_id : String) (sd : SessionData) (r : String)
    (hsd : lookupStore (resolve_session env st session_id).2.history
      (resolve_session env st session_id).1 = some sd)
    (hllm : env.llm query (contextArg (search_relevant_context env query))
      (historyArg sd.messages) = Except.ok r) :
    generate_response env st query session_id =
      (⟨pyStrip r, (resolve_session env st session_id).1,
        mkSources (search_relevant_context env query),
        if (search_relevant_context env query).isEmpty then 3/10 else 4/5⟩,
       ⟨appendMsg
          (appendMsg (resolve_session env st session_id).2.history
            (resolve_session env st session_id).1
            ⟨query, "user",
              env.uuid (resolve_session env st session_id).2.tick⟩)
          (resolve_session env st session_id).1
          ⟨r, "assistant",
            env.uuid ((resolve_session env st session_id).2.tick + 1)⟩,
        (resolve_session env st session_id).2.tick + 2⟩) := by
  simp only [generate_response]
  rw [hsd]
  dsimp only
  rw [hllm]
  simp only [finish_turn, add_message]
  rw [hsd]
  dsimp only
  rw [lookupStore_appendMsg_self, hsd]
  rfl

theorem generate_response_err (env : ChatEnv) (st : ChatState)
    (query session_id : String) (sd : SessionData) (e : String)
    (hsd : lookupStore (resolve_session env st session_id).2.history
      (resolve_session env st session_id).1 = some sd)
    (hllm : env.llm query (contextArg (search_relevant_context env query))
      (historyArg sd.messages) = Except.error e) :
    generate_response env st query session_id =
      (⟨apology, (resolve_session env st session_id).1, [], 0⟩,
        (resolve_session env st session_id).2) := by
  simp only [generate_response]
  rw [hsd]
  dsimp only
  rw [hllm]

/-- Well-behaved concrete chat environment: empty retrieval, model always
answers, distinct uuid draws. -/
def envAllOk : ChatEnv :=
  { search := fun _ _ => Except.ok []
  , llm := fun _ _ _ => Except.ok "fine"
  , suggestLLM := fun _ _ => Except.ok "1. Alpha?"
  , uuid := fun n => ⟨'u' :: List.replicate n 'x'⟩ }

/-- Chat environment whose response model always raises. -/
def envLlmDown : ChatEnv :=
  { envAllOk with llm := fun _ _ _ => Except.error "llm down" }

/-- Chat environment whose retrieval raises but whose response model
answers. -/
def envSearchDown : ChatEnv :=
  { envAllOk with
    search := fun _ _ => Except.error "vector store down"
    llm := fun _ _ _ => Except.ok " hello " }

/-- Chat environment whose suggestion model raises. -/
def envSuggestDown : ChatEnv :=
  { envAllOk with suggestLLM := fun _ _ => Except.error "down" }

/-- A store holding the single session `s` with empty history. -/
def stOne : ChatState := ⟨[("s", ⟨"T", []⟩)], 0⟩

/-- Claim C10: `add_message` on an unknown session id raises the
`ValueError` and leaves the store untouched (the raise precedes every
mutation); on a known id it appends exactly one message carrying the given
content and role, leaving every other session unchanged. -/
theorem add_message_contract (env : ChatEnv) (st : ChatState)
    (session_id content role : String) :
    (lookupStore st.history session_id = none →
      add_message env st session_id content role =
        (st, some ("Session " ++ session_id ++ " not found"))) ∧
    (∀ sd, lookupStore st.history session_id = some sd →
      add_message env st session_id content role =
        (⟨appendMsg st.history session_id ⟨content, role, env.uuid st.tick⟩,
          st.tick + 1⟩, none) ∧
      msgs (add_message env st session_id content role).1 session_id =
        msgs st session_id ++ [⟨content, role, env.uuid st.tick⟩] ∧
      (∀ k, k ≠ session_id →
        msgs (add_message env st session_id content role).1 k = msgs st k)) := by
  constructor
  · intro h
    unfold add_message
    rw [h]
  · intro sd h
    have heq : add_message env st session_id content role =
        (⟨appendMsg st.history session_id ⟨content, role, env.uuid st.tick⟩,
          st.tick + 1⟩, none) := by
      unfold add_message
      rw [h]
    refine ⟨heq, ?_, ?_⟩
    · rw [heq]
      unfold msgs
      dsimp only
      rw [lookupStore_appendMsg_self, h]
      rfl
    · intro k hk
      rw [heq]
      unfold msgs
      dsimp only
      rw [lookupStore_appendMsg_ne _ _ _ _ hk]

/-- Witness for claim C10: the unknown id `nope` raises and returns the
store unchanged; the known id `s` appends the one message. -/
theorem add_message_contract_witness :
    add_message envAllOk stOne "nope" "hi" "user" =
      (stOne, some ("Session " ++ "nope" ++ " not found")) ∧
    add_message envAllOk stOne "s" "hi" "user" =
      (⟨appendMsg stOne.history "s" ⟨"hi", "user", envAllOk.uuid stOne.tick⟩,
        stOne.tick + 1⟩, none) :=
  ⟨(add_message_contract envAllOk stOne "nope" "hi" "user").1 (by decide),
   ((add_message_contract envAllOk stOne "s" "hi" "user").2 ⟨"T", []⟩
     (by decide)).1⟩

/-- Claim C7: on every non-failed chat answer the confidence is exactly
two-valued and determined solely by the retrieval hit list: 4/5 (the float
0.8) when it is non-empty and 3/10 (the float 0.3) when it is empty; the
right-hand side mentions only the retrieval outcome, never the generated
text. -/
theorem chat_confidence_two_valued (env : ChatEnv) (st : ChatState)
    (query session_id : String)
    (hllm : ∀ a b c, ∃ r, env.llm a b c = Except.ok r) :
    (generate_response env st query session_id).1.confidence =
      if (search_relevant_context env query).isEmpty then 3/10 else 4/5 := by
  obtain ⟨sd, hsd⟩ := resolve_session_finds env st session_id
  obtain ⟨r, hr⟩ := hllm query
    (contextArg (search_relevant_context env query)) (historyArg sd.messages)
  rw [generate_response_ok env st query session_id sd r hsd hr]

/-- Witness for claim C7 at a concrete environment with empty retrieval. -/
theorem chat_confidence_two_valued_witness :
    (generate_response envAllOk stOne "q" "s").1.confidence =
      if (search_relevant_context envAllOk "q").isEmpty then 3/10 else 4/5 :=
  chat_confidence_two_valued envAllOk stOne "q" "s"
    (fun _ _ _ => ⟨"fine", rfl⟩)

/-- Claim C4 counterexample: with the retrieval collaborator raising and the
model answering `" hello "`, the answer is the normal generated response
with confidence 3/10 — not the fixed apologetic response with confidence 0
that the claim requires whenever any internal step (including retrieval)
throws.  The retrieval exception is absorbed inside
`search_relevant_context` and the turn proceeds. -/
theorem chat_error_boundary_counterexample :
    (generate_response envSearchDown stOne "q" "s").1.response = "hello" ∧
    (generate_response envSearchDown stOne "q" "s").1.response ≠ apology ∧
    (generate_response envSearchDown stOne "q" "s").1.confidence = 3/10 ∧
    (generate_response envSearchDown stOne "q" "s").1.confidence ≠ 0 := by
  refine ⟨rfl, by decide, rfl, ?_⟩
  have hc : (generate_response envSearchDown stOne "q" "s").1.confidence =
      3/10 := rfl
  rw [hc]
  norm_num

/-- Degraded outcome of a failed chat turn: the apologetic response, empty
sources, zero confidence, and no message appended to any session. -/
def chatAnswerDegrades (env : ChatEnv) (st : ChatState) (q sid : String) :
    Prop :=
  (generate_response env st q sid).1.response = apology ∧
  (generate_response env st q sid).1.sources = [] ∧
  (generate_response env st q sid).1.confidence = 0 ∧
  ∀ k, msgs (generate_response env st q sid).2 k = msgs st k

/-- Claim C4 as amended: a retrieval failure alone is absorbed into an
empty hit list and the turn proceeds normally (see the counterexample);
when a later step throws — here, generation — `generate_response` returns
the fixed apologetic response with confidence 0 and empty sources, never
raises, and appends no message to any session on that failed call.  The
freshness hypothesis says the uuid draw for a possibly created session does
not collide with an existing id. -/
theorem chat_generation_failure_degrades (env : ChatEnv) (st : ChatState)
    (q sid : String)
    (hllm : ∀ a b c, ∃ e, env.llm a b c = Except.error e)
    (hfresh : lookupStore st.history (env.uuid st.tick) = none) :
    chatAnswerDegrades env st q sid := by
  obtain ⟨sd, hsd⟩ := resolve_session_finds env st sid
  obtain ⟨e, he⟩ := hllm q (contextArg (search_relevant_context env q))
    (historyArg sd.messages)
  have hgen := generate_response_err env st q sid sd e hsd he
  unfold chatAnswerDegrades
  rw [hgen]
  refine ⟨rfl, rfl, rfl, ?_⟩
  intro k
  rcases h : lookupStore st.history sid with _ | sd0
  · rw [resolve_session_unknown env st sid h]
    unfold msgs
    dsimp only
    by_cases hk : k = env.uuid st.tick
    · subst hk
      rw [lookupStore_storeSet_self, hfresh]
    · rw [lookupStore_storeSet_ne _ _ _ _ hk]
  · rw [resolve_session_known env st sid sd0 h]

/-- Witness for the amended claim C4: failing generation on an unknown
session id degrades and appends nothing. -/
theorem chat_generation_failure_degrades_witness :
    chatAnswerDegrades envLlmDown stOne "q" "nope" :=
  chat_generation_failure_degrades envLlmDown stOne "q" "nope"
    (fun _ _ _ => ⟨"llm down", rfl⟩) (by decide)

/-- Outcome required by claim C6: the returned session id is the freshly
drawn identifier, absent from the input store, and now bound to a session
created with title `New Chat` and empty history (which then holds exactly
the two turn messages when the call succeeded). -/
def freshSessionOutcome (env : ChatEnv) (st : ChatState) (q sid : String) :
    Prop :=
  (generate_response env st q sid).1.session_id = env.uuid st.tick ∧
  lookupStore st.history (env.uuid st.tick) = none ∧
  ∃ sd, lookupStore (generate_response env st q sid).2.history
      (env.uuid st.tick) = some sd ∧
    sd.title = "New Chat" ∧
    (sd.messages = [] ∨
      ∃ r t1 t2, sd.messages = [⟨q, "user", t1⟩, ⟨r, "assistant", t2⟩])

/-- Claim C6: calling the chat answer operation with an unknown (or empty)
session id never raises (the model is a total function) and returns a
`ChatResult` whose session id is a freshly generated identifier bound to a
newly created session with empty history. -/
theorem chat_unknown_session_creates_fresh (env : ChatEnv) (st : ChatState)
    (q sid : String)
    (habs : lookupStore st.history sid = none)
    (hfresh : lookupStore st.history (env.uuid st.tick) = none) :
    freshSessionOutcome env st q sid := by
  have hres := resolve_session_unknown env st sid habs
  have hsd1 : lookupStore (resolve_session env st sid).2.history
      (resolve_session env st sid).1 = some ⟨"New Chat", []⟩ := by
    rw [hres]
    exact lookupStore_storeSet_self _ _ _
  rcases hl : env.llm q (contextArg (search_relevant_context env q))
      (historyArg ([] : List Message)) with e | r
  · have hg := generate_response_err env st q sid ⟨"New Chat", []⟩ e hsd1 hl
    unfold freshSessionOutcome
    rw [hg, hres]
    exact ⟨rfl, hfresh, ⟨"New Chat", []⟩,
      lookupStore_storeSet_self _ _ _, rfl, Or.inl rfl⟩
  · have hg := generate_response_ok env st q sid ⟨"New Chat", []⟩ r hsd1 hl
    unfold freshSessionOutcome
    rw [hg, hres]
    dsimp only
    refine ⟨rfl, hfresh, ⟨"New Chat",
      [⟨q, "user", env.uuid (st.tick + 1)⟩,
       ⟨r, "assistant", env.uuid (st.tick + 2)⟩]⟩, ?_, rfl, ?_⟩
    · rw [lookupStore_appendMsg_self, lookupStore_appendMsg_self,
        lookupStore_storeSet_self]
      rfl
    · exact Or.inr ⟨r, env.uuid (st.tick + 1), env.uuid (st.tick + 2), rfl⟩

/-- Witness for claim C6 with the empty query and an unknown session id. -/
theorem chat_unknown_session_creates_fresh_witness :
    freshSessionOutcome envAllOk stOne "" "" :=
  chat_unknown_session_creates_fresh envAllOk stOne "" ""
    (by decide) (by decide)

/-- History shape required by claim C5 starting from a session with empty
history: the first successful call appends the user turn then the
assistant turn, the second appends two more, so the history has length 4,
alternating user/assistant in insertion order, and no other session is
touched. -/
def twoTurnHistory (env : ChatEnv) (st : ChatState) (q1 q2 sid : String) :
    Prop :=
  ∃ r1 r2 t1 t2 t3 t4,
    msgs (generate_response env st q1 sid).2 sid =
      [⟨q1, "user", t1⟩, ⟨r1, "assistant", t2⟩] ∧
    (generate_response env st q1 sid).1.response = pyStrip r1 ∧
    msgs (generate_response env (generate_response env st q1 sid).2 q2
        sid).2 sid =
      [⟨q1, "user", t1⟩, ⟨r1, "assistant", t2⟩,
       ⟨q2, "user", t3⟩, ⟨r2, "assistant", t4⟩] ∧
    (generate_response env (generate_response env st q1 sid).2 q2
        sid).1.response = pyStrip r2 ∧
    (∀ k, k ≠ sid →
      msgs (generate_response env (generate_response env st q1 sid).2 q2
        sid).2 k = msgs st k)

/-- Claim C5: every successful chat answer appends exactly two messages to
the resolved session — the user message carrying the query, then the
assistant message carrying the generated response, in that order — so two
consecutive successful calls on the same session leave a history of length
4 alternating user/assistant in chronological (insertion) order. -/
theorem chat_two_calls_history (env : ChatEnv) (st : ChatState)
    (q1 q2 sid title : String)
    (hsd : lookupStore st.history sid = some ⟨title, []⟩)
    (hllm : ∀ a b c, ∃ r, env.llm a b c = Except.ok r) :
    twoTurnHistory env st q1 q2 sid := by
  have hres1 := resolve_session_known env st sid ⟨title, []⟩ hsd
  have hsd1 : lookupStore (resolve_session env st sid).2.history
      (resolve_session env st sid).1 = some ⟨title, []⟩ := by
    rw [hres1]
    exact hsd
  obtain ⟨r1, hr1⟩ := hllm q1
    (contextArg (search_relevant_context env q1)) (historyArg [])
  have hg1 := generate_response_ok env st q1 sid ⟨title, []⟩ r1 hsd1 hr1
  rw [hres1] at hg1
  dsimp only at hg1
  have hmsg1 : lookupStore
      (appendMsg (appendMsg st.history sid
        ⟨q1, "user", env.uuid st.tick⟩) sid
        ⟨r1, "assistant", env.uuid (st.tick + 1)⟩) sid =
      some ⟨title, [⟨q1, "user", env.uuid st.tick⟩,
        ⟨r1, "assistant", env.uuid (st.tick + 1)⟩]⟩ := by
    rw [lookupStore_appendMsg_self, lookupStore_appendMsg_self, hsd]
    rfl
  have hst1 : (generate_response env st q1 sid).2 =
      ⟨appendMsg (appendMsg st.history sid
        ⟨q1, "user", env.uuid st.tick⟩) sid
        ⟨r1, "assistant", env.uuid (st.tick + 1)⟩, st.tick + 2⟩ := by
    rw [hg1]
  have hres2 := resolve_session_known env (generate_response env st q1 sid).2
    sid ⟨title, [⟨q1, "user", env.uuid st.tick⟩,
      ⟨r1, "assistant", env.uuid (st.tick + 1)⟩]⟩ (by rw [hst1]; exact hmsg1)
  have hsd2 : lookupStore
      (resolve_session env (generate_response env st q1 sid).2 sid).2.history
      (resolve_session env (generate_response env st q1 sid).2 sid).1 =
      some ⟨title, [⟨q1, "user", env.uuid st.tick⟩,
        ⟨r1, "assistant", env.uuid (st.tick + 1)⟩]⟩ := by
    rw [hres2, hst1]
    exact hmsg1
  obtain ⟨r2, hr2⟩ := hllm q2
    (contextArg (search_relevant_context env q2))
    (historyArg [⟨q1, "user", env.uuid st.tick⟩,
      ⟨r1, "assistant", env.uuid (st.tick + 1)⟩])
  have hg2 := generate_response_ok env (generate_response env st q1 sid).2
    q2 sid ⟨title, [⟨q1, "user", env.uuid st.tick⟩,
      ⟨r1, "assistant", env.uuid (st.tick + 1)⟩]⟩ r2 hsd2 hr2
  rw [hres2] at hg2
  dsimp only at hg2
  refine ⟨r1, r2, env.uuid st.tick, env.uuid (st.tick + 1),
    env.uuid (st.tick + 2), env.uuid (st.tick + 3), ?_, ?_, ?_, ?_, ?_⟩
  · rw [hst1]
    unfold msgs
    dsimp only
    rw [hmsg1]
  · rw [hg1]
  · rw [hg2]
    unfold msgs
    dsimp only
    rw [hst1]
    dsimp only
    rw [lookupStore_appendMsg_self, lookupStore_appendMsg_self, hmsg1]
    rfl
  · rw [hg2]
  · intro k hk
    rw [hg2]
    unfold msgs
    dsimp only
    rw [hst1]
    dsimp only
    rw [lookupStore_appendMsg_ne _ _ _ _ hk, lookupStore_appendMsg_ne _ _ _ _ hk,
      lookupStore_appendMsg_ne _ _ _ _ hk, lookupStore_appendMsg_ne _ _ _ _ hk]

/-- Witness for claim C5 on a concrete always-answering environment. -/
theorem chat_two_calls_history_witness :
    twoTurnHistory envAllOk stOne "first?" "second?" "s" :=
  chat_two_calls_history envAllOk stOne "first?" "second?" "s" "T"
    (by decide) (fun _ _ _ => ⟨"fine", rfl⟩)

theorem questionOf_trimmed (line : String) :
    pyStrip (questionOf (pyStrip line)) = questionOf (pyStrip line) := by
  unfold questionOf
  by_cases h : (pyStrip line).data.contains '.' = true
  · rw [if_pos h]
    exact congrArg String.mk (stripL_idem _)
  · rw [if_neg h]
    exact pyStrip_idem line

theorem parseSuggestionLine_some (line q : String)
    (h : parseSuggestionLine line = some q) : q ≠ "" ∧ pyStrip q = q := by
  unfold parseSuggestionLine at h
  split at h
  · cases h
  · split at h
    · split at h
      · cases h
      · next hq =>
        rw [Option.some.injEq] at h
        subst h
        exact ⟨hq, questionOf_trimmed line⟩
    · cases h

/-- Claim C9: `suggest_follow_up_questions` returns at most 3 questions,
each non-empty and trimmed, parsed in order from the ordinal-marked lines
of the model output; it is a total function (malformed output merely yields
fewer results), and a raising suggestion model — or an unknown session —
yields the empty sequence. -/
theorem suggest_follow_ups_shape (env : ChatEnv) (st : ChatState)
    (query session_id : String) :
    (suggest_follow_up_questions env st query session_id).length ≤ 3 ∧
    (∀ s ∈ suggest_follow_up_questions env st query session_id,
      s ≠ "" ∧ pyStrip s = s) ∧
    ((∀ a b, ∃ e, env.suggestLLM a b = Except.error e) →
      suggest_follow_up_questions env st query session_id = []) := by
  refine ⟨?_, ?_, ?_⟩
  · unfold suggest_follow_up_questions
    split
    · simp
    · split
      · simp
      · exact List.length_take_le 3 _
  · intro s hs
    unfold suggest_follow_up_questions at hs
    split at hs
    · simp at hs
    · split at hs
      · simp at hs
      · obtain ⟨line, _, hp⟩ := List.mem_filterMap.1 (List.mem_of_mem_take hs)
        exact parseSuggestionLine_some line s hp
  · intro hfail
    unfold suggest_follow_up_questions
    split
    · rfl
    · split
      · rfl
      · next heq =>
        obtain ⟨e, he⟩ := hfail query _
        rw [he] at heq
        simp at heq

/-- Witness for claim C9: a raising suggestion model yields the empty
sequence on a concrete state. -/
theorem suggest_follow_ups_shape_witness :
    suggest_follow_up_questions envSuggestDown stOne "q" "s" = [] :=
  (suggest_follow_ups_shape envSuggestDown stOne "q" "s").2.2
    (fun _ _ => ⟨"down", rfl⟩)
